import Mathlib

/-!
Verification of the primer-designer back end (a thin HTTP wrapper around an
external primer-design library).

The handler `design_primer` in `src/app.py` reads three request fields,
computes a product-size range, raises a `ValueError` when the range is
infeasible, otherwise calls the external routine
`primer3.bindings.designPrimers` once with two parameter dictionaries and
projects the returned mapping into a `PrimerResponse`.

The embedding below models the external library as an oracle
`PrimerDesignInput → OverrideInput → σ → PrimerResults × σ` threaded through
explicit state `σ`, so that the number of calls and the state the handler
reads are observable.  The library's returned mapping is a partial map from
string keys to heterogeneous values (`PrimerResults`); extraction of the
response is in `Except`, with `DesignError.extractionError` standing for any
uncaught exception raised while indexing the returned mapping (KeyError,
type errors), kept distinct from the handler's own `ValueError`.
Python ints are `Int`, Python floats are `Rat` (only copied, never computed
with), Python strings are `String`.
-/

/-- Request body of `POST /design-primer/` (`PrimerDesignRequest` in
`src/app.py`, lines 24-27): `sequence : str`, `primer_length : int`,
`gc_content : float`. -/
structure PrimerDesignRequest where
  sequence : String
  primer_length : Int
  gc_content : Rat
  deriving DecidableEq

/-- One primer in the response (`PrimerDetail` in `src/app.py`,
lines 29-35). -/
structure PrimerDetail where
  sequence : String
  tm : Rat
  gc_percent : Rat
  penalty : Rat
  start : Int
  length : Int
  deriving DecidableEq

/-- Response body (`PrimerResponse` in `src/app.py`, lines 37-40). -/
structure PrimerResponse where
  left_primer : PrimerDetail
  right_primer : PrimerDetail
  internal_primers : List PrimerDetail
  deriving DecidableEq

/-- A value stored in the dictionary returned by the external library:
a string, a float, an int, or a pair of ints (start, length). -/
inductive P3Value where
  | str (s : String)
  | num (q : Rat)
  | int (n : Int)
  | pair (a b : Int)
  deriving DecidableEq

/-- The mapping returned by `primer3.bindings.designPrimers`: a Python
dictionary, i.e. a partial map from string keys to values. -/
def PrimerResults : Type := String → Option P3Value

/-- First argument of the library call (`primer_design_input`,
`src/app.py` lines 67-76). -/
structure PrimerDesignInput where
  SEQUENCE_TEMPLATE : String
  SEQUENCE_INCLUDED_REGION : Int × Int
  PRIMER_OPT_GC_PERCENT : Rat
  PRIMER_OPT_SIZE : Int
  PRIMER_MIN_SIZE : Int
  PRIMER_MAX_SIZE : Int
  PRIMER_PRODUCT_SIZE_RANGE : List (Int × Int)
  PRIMER_NUM_RETURN : Int
  deriving DecidableEq

/-- Second argument of the library call (the inline override dictionary,
`src/app.py` lines 81-88). -/
structure OverrideInput where
  PRIMER_OPT_SIZE : Int
  PRIMER_MIN_SIZE : Int
  PRIMER_MAX_SIZE : Int
  PRIMER_OPT_GC_PERCENT : Rat
  PRIMER_PRODUCT_SIZE_RANGE : List (Int × Int)
  PRIMER_NUM_RETURN : Int
  deriving DecidableEq

/-- Errors the handler can surface: its own `ValueError` (line 61 of
`src/app.py`), or an uncaught exception while extracting fields from the
library's returned mapping (missing key or wrongly-typed value). -/
inductive DesignError where
  | valueError (msg : String)
  | extractionError
  deriving DecidableEq

/-- Python `d[k]` expecting a string value. -/
def getStr (r : PrimerResults) (k : String) : Except DesignError String :=
  match r k with
  | some (.str s) => .ok s
  | _ => .error .extractionError

/-- Python `d[k]` expecting a float value. -/
def getNum (r : PrimerResults) (k : String) : Except DesignError Rat :=
  match r k with
  | some (.num q) => .ok q
  | _ => .error .extractionError

/-- Python `d[k]` expecting an int value. -/
def getInt (r : PrimerResults) (k : String) : Except DesignError Int :=
  match r k with
  | some (.int n) => .ok n
  | _ => .error .extractionError

/-- Python `d[k]` expecting a (start, length) pair. -/
def getPair (r : PrimerResults) (k : String) : Except DesignError (Int × Int) :=
  match r k with
  | some (.pair a b) => .ok (a, b)
  | _ => .error .extractionError

/-- Body of the `for i in range(...)` loop of `src/app.py` lines 104-113:
build the i-th internal primer from the `PRIMER_INTERNAL_{i}_*` keys. -/
def buildInternalDetail (r : PrimerResults) (i : Nat) : Except DesignError PrimerDetail := do
  let s ← getStr r ("PRIMER_INTERNAL_" ++ toString i ++ "_SEQUENCE")
  let tm ← getNum r ("PRIMER_INTERNAL_" ++ toString i ++ "_TM")
  let gc ← getNum r ("PRIMER_INTERNAL_" ++ toString i ++ "_GC_PERCENT")
  let pen ← getNum r ("PRIMER_INTERNAL_" ++ toString i ++ "_PENALTY")
  let p ← getPair r ("PRIMER_INTERNAL_" ++ toString i)
  pure { sequence := s, tm := tm, gc_percent := gc, penalty := pen,
         start := p.1, length := p.2 }

/-- The `for i in range(count)` loop of `src/app.py` lines 102-113,
appending one `PrimerDetail` per index; indices are evaluated in order and
the first failing access aborts, exactly as the Python loop raises. -/
def internalPrimersUpTo (r : PrimerResults) : Nat → Except DesignError (List PrimerDetail)
  | 0 => .ok []
  | n + 1 => do
      let l ← internalPrimersUpTo r n
      let d ← buildInternalDetail r n
      .ok (l ++ [d])

/-- Lines 92-133 of `src/app.py`: extract the named fields from the
returned mapping (in source order), run the internal-primer loop
(`range` of a negative count is empty, hence `Int.toNat`), and assemble
the `PrimerResponse`. -/
def extractResponse (primer_results : PrimerResults) : Except DesignError PrimerResponse := do
  let left_primer ← getStr primer_results "PRIMER_LEFT_0_SEQUENCE"
  let right_primer ← getStr primer_results "PRIMER_RIGHT_0_SEQUENCE"
  let left_primer_tm ← getNum primer_results "PRIMER_LEFT_0_TM"
  let right_primer_tm ← getNum primer_results "PRIMER_RIGHT_0_TM"
  let left_primer_gc ← getNum primer_results "PRIMER_LEFT_0_GC_PERCENT"
  let right_primer_gc ← getNum primer_results "PRIMER_RIGHT_0_GC_PERCENT"
  let left_primer_penalty ← getNum primer_results "PRIMER_LEFT_0_PENALTY"
  let right_primer_penalty ← getNum primer_results "PRIMER_RIGHT_0_PENALTY"
  let count ← getInt primer_results "PRIMER_INTERNAL_NUM_RETURNED"
  let internal_primers ← internalPrimersUpTo primer_results count.toNat
  let lp ← getPair primer_results "PRIMER_LEFT_0"
  let rp ← getPair primer_results "PRIMER_RIGHT_0"
  pure
    { left_primer :=
        { sequence := left_primer, tm := left_primer_tm,
          gc_percent := left_primer_gc, penalty := left_primer_penalty,
          start := lp.1, length := lp.2 }
      right_primer :=
        { sequence := right_primer, tm := right_primer_tm,
          gc_percent := right_primer_gc, penalty := right_primer_penalty,
          start := rp.1, length := rp.2 }
      internal_primers := internal_primers }

/-- The handler `design_primer` of `src/app.py`, lines 48-133.
`designPrimers` is the external routine `primer3.bindings.designPrimers`,
modelled as an oracle threading explicit state `σ`; the request and the
oracle are the handler's only inputs. -/
def design_primer {σ : Type} (designPrimers : PrimerDesignInput → OverrideInput → σ → PrimerResults × σ)
    (request : PrimerDesignRequest) (s : σ) : Except DesignError PrimerResponse × σ :=
  let sequence := request.sequence
  let primer_length := request.primer_length
  let gc_content := request.gc_content
  let sequence_length := sequence.length
  let min_product_size : Int := max (primer_length * 2) 50
  let max_product_size : Int := sequence_length
  if min_product_size > max_product_size then
    (.error (.valueError ("The sequence length " ++ toString sequence_length ++
      " is too short for the requested primer length " ++ toString primer_length ++ ".")), s)
  else
    let product_size_range : List (Int × Int) := [(min_product_size, max_product_size)]
    let primer_design_input : PrimerDesignInput :=
      { SEQUENCE_TEMPLATE := sequence,
        SEQUENCE_INCLUDED_REGION := (0, (sequence_length : Int)),
        PRIMER_OPT_GC_PERCENT := gc_content,
        PRIMER_OPT_SIZE := primer_length,
        PRIMER_MIN_SIZE := primer_length - 2,
        PRIMER_MAX_SIZE := primer_length + 2,
        PRIMER_PRODUCT_SIZE_RANGE := product_size_range,
        PRIMER_NUM_RETURN := 1 }
    let override_args : OverrideInput :=
      { PRIMER_OPT_SIZE := primer_length,
        PRIMER_MIN_SIZE := primer_length,
        PRIMER_MAX_SIZE := primer_length,
        PRIMER_OPT_GC_PERCENT := gc_content,
        PRIMER_PRODUCT_SIZE_RANGE := product_size_range,
        PRIMER_NUM_RETURN := 1 }
    let call := designPrimers primer_design_input override_args s
    (extractResponse call.1, call.2)

/-! ### Helper lemmas about the `Except` plumbing -/

theorem exceptBind_ok {α β : Type} {x : Except DesignError α}
    {f : α → Except DesignError β} {b : β} (h : x >>= f = .ok b) :
    ∃ a, x = .ok a ∧ f a = .ok b := by
  cases x with
  | error e => simp [Bind.bind, Except.bind] at h
  | ok a => exact ⟨a, rfl, h⟩

theorem getStr_ok {r : PrimerResults} {k : String} {s : String}
    (h : getStr r k = .ok s) : r k = some (.str s) := by
  unfold getStr at h
  cases hk : r k with
  | none => rw [hk] at h; cases h
  | some v =>
    rw [hk] at h
    cases v with
    | str t => cases h; rfl
    | num q => cases h
    | int n => cases h
    | pair a b => cases h

theorem getNum_ok {r : PrimerResults} {k : String} {q : Rat}
    (h : getNum r k = .ok q) : r k = some (.num q) := by
  unfold getNum at h
  cases hk : r k with
  | none => rw [hk] at h; cases h
  | some v =>
    rw [hk] at h
    cases v with
    | str t => cases h
    | num t => cases h; rfl
    | int n => cases h
    | pair a b => cases h

theorem getInt_ok {r : PrimerResults} {k : String} {n : Int}
    (h : getInt r k = .ok n) : r k = some (.int n) := by
  unfold getInt at h
  cases hk : r k with
  | none => rw [hk] at h; cases h
  | some v =>
    rw [hk] at h
    cases v with
    | str t => cases h
    | num t => cases h
    | int m => cases h; rfl
    | pair a b => cases h

theorem getPair_ok {r : PrimerResults} {k : String} {p : Int × Int}
    (h : getPair r k = .ok p) : r k = some (.pair p.1 p.2) := by
  unfold getPair at h
  cases hk : r k with
  | none => rw [hk] at h; cases h
  | some v =>
    rw [hk] at h
    cases v with
    | str t => cases h
    | num t => cases h
    | int m => cases h
    | pair a b => cases h; rfl

theorem internalPrimersUpTo_length {r : PrimerResults} :
    ∀ {n : Nat} {l : List PrimerDetail},
      internalPrimersUpTo r n = .ok l → l.length = n := by
  intro n
  induction n with
  | zero => intro l h; cases h; rfl
  | succ m ih =>
    intro l h
    unfold internalPrimersUpTo at h
    obtain ⟨l0, hl0, h⟩ := exceptBind_ok h
    obtain ⟨d, hd, h⟩ := exceptBind_ok h
    cases h
    simp [ih hl0]

theorem internalPrimersUpTo_get {r : PrimerResults} :
    ∀ {n : Nat} {l : List PrimerDetail},
      internalPrimersUpTo r n = .ok l →
      ∀ i, (hi : i < l.length) → buildInternalDetail r i = .ok l[i] := by
  intro n
  induction n with
  | zero =>
    intro l h i hi
    cases h
    simp at hi
  | succ m ih =>
    intro l h i hi
    unfold internalPrimersUpTo at h
    obtain ⟨l0, hl0, h⟩ := exceptBind_ok h
    obtain ⟨d, hd, h⟩ := exceptBind_ok h
    cases h
    have hlen : l0.length = m := internalPrimersUpTo_length hl0
    by_cases hcase : i < l0.length
    · have := ih hl0 i hcase
      rwa [List.getElem_append_left hcase]
    · have him : i = m := by
        have h1 : i < l0.length + 1 := by simpa using hi
        omega
      subst him
      have hi0 : l0.length ≤ i := by omega
      rw [List.getElem_append_right hi0]
      simpa [hlen] using hd

/-- Any error produced while extracting the response is an uncaught
extraction exception, never the handler's own `ValueError`. -/
theorem noVE_bind {α β : Type} {x : Except DesignError α}
    {f : α → Except DesignError β}
    (hx : ∀ msg, x ≠ .error (.valueError msg))
    (hf : ∀ a msg, f a ≠ .error (.valueError msg)) :
    ∀ msg, x >>= f ≠ .error (.valueError msg) := by
  intro msg
  cases x with
  | error e =>
    intro h
    simp only [Bind.bind, Except.bind] at h
    injection h with he
    exact hx msg (by rw [he])
  | ok a =>
    intro h
    simp only [Bind.bind, Except.bind] at h
    exact hf a msg h

theorem getStr_noVE (r : PrimerResults) (k : String) :
    ∀ msg, getStr r k ≠ .error (.valueError msg) := by
  intro msg
  unfold getStr
  cases r k with
  | none => simp
  | some v => cases v <;> simp

theorem getNum_noVE (r : PrimerResults) (k : String) :
    ∀ msg, getNum r k ≠ .error (.valueError msg) := by
  intro msg
  unfold getNum
  cases r k with
  | none => simp
  | some v => cases v <;> simp

theorem getInt_noVE (r : PrimerResults) (k : String) :
    ∀ msg, getInt r k ≠ .error (.valueError msg) := by
  intro msg
  unfold getInt
  cases r k with
  | none => simp
  | some v => cases v <;> simp

theorem getPair_noVE (r : PrimerResults) (k : String) :
    ∀ msg, getPair r k ≠ .error (.valueError msg) := by
  intro msg
  unfold getPair
  cases r k with
  | none => simp
  | some v => cases v <;> simp

theorem buildInternalDetail_noVE (r : PrimerResults) (i : Nat) :
    ∀ msg, buildInternalDetail r i ≠ .error (.valueError msg) := by
  unfold buildInternalDetail
  exact noVE_bind (getStr_noVE r _) fun s =>
    noVE_bind (getNum_noVE r _) fun tm =>
    noVE_bind (getNum_noVE r _) fun gc =>
    noVE_bind (getNum_noVE r _) fun pen =>
    noVE_bind (getPair_noVE r _) fun p msg => by simp [pure, Except.pure]

theorem internalPrimersUpTo_noVE (r : PrimerResults) :
    ∀ (n : Nat) (msg : String),
      internalPrimersUpTo r n ≠ .error (.valueError msg) := by
  intro n
  induction n with
  | zero => intro msg; unfold internalPrimersUpTo; simp
  | succ m ih =>
    unfold internalPrimersUpTo
    exact noVE_bind ih fun l =>
      noVE_bind (buildInternalDetail_noVE r m) fun d msg => by simp

theorem extractResponse_noVE (r : PrimerResults) :
    ∀ msg, extractResponse r ≠ .error (.valueError msg) := by
  unfold extractResponse
  exact noVE_bind (getStr_noVE r _) fun a1 =>
    noVE_bind (getStr_noVE r _) fun a2 =>
    noVE_bind (getNum_noVE r _) fun a3 =>
    noVE_bind (getNum_noVE r _) fun a4 =>
    noVE_bind (getNum_noVE r _) fun a5 =>
    noVE_bind (getNum_noVE r _) fun a6 =>
    noVE_bind (getNum_noVE r _) fun a7 =>
    noVE_bind (getNum_noVE r _) fun a8 =>
    noVE_bind (getInt_noVE r _) fun a9 =>
    noVE_bind (internalPrimersUpTo_noVE r _) fun a10 =>
    noVE_bind (getPair_noVE r _) fun a11 =>
    noVE_bind (getPair_noVE r _) fun a12 msg => by simp [pure, Except.pure]

/-- Successful extraction characterised: every response field is the value
the returned mapping holds at the corresponding fixed key. -/
theorem extractResponse_ok_parts {r : PrimerResults} {resp : PrimerResponse}
    (h : extractResponse r = .ok resp) :
    getStr r "PRIMER_LEFT_0_SEQUENCE" = .ok resp.left_primer.sequence ∧
    getStr r "PRIMER_RIGHT_0_SEQUENCE" = .ok resp.right_primer.sequence ∧
    getNum r "PRIMER_LEFT_0_TM" = .ok resp.left_primer.tm ∧
    getNum r "PRIMER_RIGHT_0_TM" = .ok resp.right_primer.tm ∧
    getNum r "PRIMER_LEFT_0_GC_PERCENT" = .ok resp.left_primer.gc_percent ∧
    getNum r "PRIMER_RIGHT_0_GC_PERCENT" = .ok resp.right_primer.gc_percent ∧
    getNum r "PRIMER_LEFT_0_PENALTY" = .ok resp.left_primer.penalty ∧
    getNum r "PRIMER_RIGHT_0_PENALTY" = .ok resp.right_primer.penalty ∧
    (∃ count : Int, getInt r "PRIMER_INTERNAL_NUM_RETURNED" = .ok count ∧
      internalPrimersUpTo r count.toNat = .ok resp.internal_primers) ∧
    getPair r "PRIMER_LEFT_0" = .ok (resp.left_primer.start, resp.left_primer.length) ∧
    getPair r "PRIMER_RIGHT_0" = .ok (resp.right_primer.start, resp.right_primer.length) := by
  unfold extractResponse at h
  obtain ⟨ls, hls, h⟩ := exceptBind_ok h
  obtain ⟨rs, hrs, h⟩ := exceptBind_ok h
  obtain ⟨ltm, hltm, h⟩ := exceptBind_ok h
  obtain ⟨rtm, hrtm, h⟩ := exceptBind_ok h
  obtain ⟨lgc, hlgc, h⟩ := exceptBind_ok h
  obtain ⟨rgc, hrgc, h⟩ := exceptBind_ok h
  obtain ⟨lpen, hlpen, h⟩ := exceptBind_ok h
  obtain ⟨rpen, hrpen, h⟩ := exceptBind_ok h
  obtain ⟨count, hcount, h⟩ := exceptBind_ok h
  obtain ⟨il, hil, h⟩ := exceptBind_ok h
  obtain ⟨lp, hlp, h⟩ := exceptBind_ok h
  obtain ⟨rp, hrp, h⟩ := exceptBind_ok h
  injection h with h
  subst h
  refine ⟨hls, hrs, hltm, hrtm, hlgc, hrgc, hlpen, hrpen, ⟨count, hcount, hil⟩, ?_, ?_⟩
  · simpa using hlp
  · simpa using hrp

/-! ### The two parameter dictionaries and the handler's branches -/

/-- The first dictionary the handler passes to the library
(`primer_design_input`, `src/app.py` lines 67-76). -/
def requestTaskConfig (req : PrimerDesignRequest) : PrimerDesignInput :=
  { SEQUENCE_TEMPLATE := req.sequence,
    SEQUENCE_INCLUDED_REGION := (0, (req.sequence.length : Int)),
    PRIMER_OPT_GC_PERCENT := req.gc_content,
    PRIMER_OPT_SIZE := req.primer_length,
    PRIMER_MIN_SIZE := req.primer_length - 2,
    PRIMER_MAX_SIZE := req.primer_length + 2,
    PRIMER_PRODUCT_SIZE_RANGE := [(max (req.primer_length * 2) 50, (req.sequence.length : Int))],
    PRIMER_NUM_RETURN := 1 }

/-- The second dictionary the handler passes to the library (the inline
override dictionary, `src/app.py` lines 81-88). -/
def requestOverrideConfig (req : PrimerDesignRequest) : OverrideInput :=
  { PRIMER_OPT_SIZE := req.primer_length,
    PRIMER_MIN_SIZE := req.primer_length,
    PRIMER_MAX_SIZE := req.primer_length,
    PRIMER_OPT_GC_PERCENT := req.gc_content,
    PRIMER_PRODUCT_SIZE_RANGE := [(max (req.primer_length * 2) 50, (req.sequence.length : Int))],
    PRIMER_NUM_RETURN := 1 }

/-- The message of the `ValueError` raised on line 61 of `src/app.py`. -/
def infeasibleMessage (req : PrimerDesignRequest) : String :=
  "The sequence length " ++ toString req.sequence.length ++
    " is too short for the requested primer length " ++ toString req.primer_length ++ "."

theorem design_primer_fail {σ : Type}
    (lib : PrimerDesignInput → OverrideInput → σ → PrimerResults × σ)
    (req : PrimerDesignRequest) (s : σ)
    (h : (req.sequence.length : Int) < max (req.primer_length * 2) 50) :
    design_primer lib req s = (.error (.valueError (infeasibleMessage req)), s) := by
  simp only [design_primer]
  split
  · rfl
  · next hc => exact absurd h hc

theorem design_primer_pass {σ : Type}
    (lib : PrimerDesignInput → OverrideInput → σ → PrimerResults × σ)
    (req : PrimerDesignRequest) (s : σ)
    (h : max (req.primer_length * 2) 50 ≤ (req.sequence.length : Int)) :
    design_primer lib req s =
      (extractResponse (lib (requestTaskConfig req) (requestOverrideConfig req) s).1,
        (lib (requestTaskConfig req) (requestOverrideConfig req) s).2) := by
  simp only [design_primer]
  split
  · next hc => exact absurd hc (not_lt.mpr h)
  · rfl

/-- A trivial concrete oracle used to instantiate theorems on concrete
requests (it returns an empty mapping and leaves the state unchanged). -/
def nullLib : PrimerDesignInput → OverrideInput → Unit → PrimerResults × Unit :=
  fun _ _ s => (fun _ => none, s)

/-- C1: the handler raises its `ValueError` — with the library never called
and the state untouched — exactly when `max(2*P, 50) > L`; in particular a
request with a 50-character sequence and `primer_length = 30` fails. -/
theorem design_primer_valueError_iff {σ : Type}
    (lib : PrimerDesignInput → OverrideInput → σ → PrimerResults × σ)
    (req : PrimerDesignRequest) (s : σ) :
    ((∃ msg, design_primer lib req s = (.error (.valueError msg), s)) ↔
        max (2 * req.primer_length) 50 > (req.sequence.length : Int)) ∧
    (∃ msg, design_primer lib
        { sequence := String.mk (List.replicate 50 'A'), primer_length := 30, gc_content := 50 } s
        = (.error (.valueError msg), s)) := by
  constructor
  · constructor
    · rintro ⟨msg, hmsg⟩
      by_contra hc
      push_neg at hc
      have h' : max (req.primer_length * 2) 50 ≤ (req.sequence.length : Int) := by
        simpa [mul_comm] using hc
      rw [design_primer_pass lib req s h'] at hmsg
      have hfst := congrArg Prod.fst hmsg
      exact extractResponse_noVE _ msg hfst
    · intro hc
      have h' : (req.sequence.length : Int) < max (req.primer_length * 2) 50 := by
        simpa [mul_comm] using hc
      exact ⟨_, design_primer_fail lib req s h'⟩
  · exact ⟨_, design_primer_fail lib _ s (by decide)⟩

/-- C1 witness: concrete instance of the failing example. -/
theorem design_primer_valueError_iff_witness :
    ∃ msg, design_primer nullLib
      { sequence := String.mk (List.replicate 50 'A'), primer_length := 30, gc_content := 50 } ()
      = (.error (.valueError msg), ()) :=
  (design_primer_valueError_iff nullLib
    { sequence := "", primer_length := 0, gc_content := 0 } ()).2

/-- C9: any request whose sequence is shorter than 50 characters fails with
the `ValueError` whatever `primer_length` is (the derived minimum product
size is at least 50), the library is never called and the state is
untouched. -/
theorem short_sequence_always_fails {σ : Type}
    (lib : PrimerDesignInput → OverrideInput → σ → PrimerResults × σ)
    (req : PrimerDesignRequest) (s : σ)
    (h : req.sequence.length < 50) :
    ∃ msg, design_primer lib req s = (.error (.valueError msg), s) := by
  refine ⟨_, design_primer_fail lib req s ?_⟩
  calc (req.sequence.length : Int) < 50 := by exact_mod_cast h
    _ ≤ max (req.primer_length * 2) 50 := le_max_right _ _

/-- C9 witness: the empty sequence with a negative `primer_length` fails
without any library call. -/
theorem short_sequence_always_fails_witness :
    ∃ msg, design_primer nullLib
      { sequence := "", primer_length := -7, gc_content := 200 } ()
      = (.error (.valueError msg), ()) :=
  short_sequence_always_fails nullLib
    { sequence := "", primer_length := -7, gc_content := 200 } () (by decide)

/-- C2: when the guard passes, the handler calls the library with two
dictionaries whose `PRIMER_PRODUCT_SIZE_RANGE` is exactly
`[(max(2*P, 50), L)]` — i.e. min_product_size = max(2*P, 50) and
max_product_size = L. -/
theorem product_size_range_passed (req : PrimerDesignRequest)
    (h : max (2 * req.primer_length) 50 ≤ (req.sequence.length : Int)) :
    ∃ (I : PrimerDesignInput) (O : OverrideInput),
      (∀ {σ : Type} (lib : PrimerDesignInput → OverrideInput → σ → PrimerResults × σ) (s : σ),
        design_primer lib req s =
          (extractResponse (lib I O s).1, (lib I O s).2)) ∧
      I.PRIMER_PRODUCT_SIZE_RANGE
        = [(max (2 * req.primer_length) 50, (req.sequence.length : Int))] ∧
      O.PRIMER_PRODUCT_SIZE_RANGE
        = [(max (2 * req.primer_length) 50, (req.sequence.length : Int))] := by
  refine ⟨requestTaskConfig req, requestOverrideConfig req, ?_, ?_, ?_⟩
  · intro σ lib s
    exact design_primer_pass lib req s (by simpa [mul_comm] using h)
  · simp [requestTaskConfig, mul_comm]
  · simp [requestOverrideConfig, mul_comm]

/-- C2 witness: a 50-character sequence with `primer_length = 25`. -/
theorem product_size_range_passed_witness :
    ∃ (I : PrimerDesignInput) (O : OverrideInput),
      (∀ {σ : Type} (lib : PrimerDesignInput → OverrideInput → σ → PrimerResults × σ) (s : σ),
        design_primer lib
          { sequence := String.mk (List.replicate 50 'A'), primer_length := 25, gc_content := 50 } s
          = (extractResponse (lib I O s).1, (lib I O s).2)) ∧
      I.PRIMER_PRODUCT_SIZE_RANGE = [(max (2 * 25) 50, (50 : Int))] ∧
      O.PRIMER_PRODUCT_SIZE_RANGE = [(max (2 * 25) 50, (50 : Int))] :=
  product_size_range_passed
    { sequence := String.mk (List.replicate 50 'A'), primer_length := 25, gc_content := 50 }
    (by decide)

/-- C3: when the guard passes, the handler passes exactly two parameter
dictionaries to the library: the task config with optimal/min/max primer
size `P`/`P-2`/`P+2`, the template sequence, included region `(0, L)`,
optimal GC percent, one returned pair; and the override config narrowing
min = max = opt primer size to exactly `P`. -/
theorem parameter_dicts_contents (req : PrimerDesignRequest)
    (h : max (2 * req.primer_length) 50 ≤ (req.sequence.length : Int)) :
    ∃ (I : PrimerDesignInput) (O : OverrideInput),
      (∀ {σ : Type} (lib : PrimerDesignInput → OverrideInput → σ → PrimerResults × σ) (s : σ),
        design_primer lib req s =
          (extractResponse (lib I O s).1, (lib I O s).2)) ∧
      I.PRIMER_OPT_SIZE = req.primer_length ∧
      I.PRIMER_MIN_SIZE = req.primer_length - 2 ∧
      I.PRIMER_MAX_SIZE = req.primer_length + 2 ∧
      I.SEQUENCE_TEMPLATE = req.sequence ∧
      I.SEQUENCE_INCLUDED_REGION = (0, (req.sequence.length : Int)) ∧
      I.PRIMER_OPT_GC_PERCENT = req.gc_content ∧
      I.PRIMER_NUM_RETURN = 1 ∧
      O.PRIMER_MIN_SIZE = req.primer_length ∧
      O.PRIMER_MAX_SIZE = req.primer_length ∧
      O.PRIMER_OPT_SIZE = req.primer_length ∧
      O.PRIMER_OPT_GC_PERCENT = req.gc_content ∧
      O.PRIMER_NUM_RETURN = 1 := by
  refine ⟨requestTaskConfig req, requestOverrideConfig req, ?_,
    rfl, rfl, rfl, rfl, rfl, rfl, rfl, rfl, rfl, rfl, rfl, rfl⟩
  intro σ lib s
  exact design_primer_pass lib req s (by simpa [mul_comm] using h)

/-- C3 witness: concrete instance on a 50-character sequence. -/
theorem parameter_dicts_contents_witness :
    ∃ (I : PrimerDesignInput) (O : OverrideInput),
      (∀ {σ : Type} (lib : PrimerDesignInput → OverrideInput → σ → PrimerResults × σ) (s : σ),
        design_primer lib
          { sequence := String.mk (List.replicate 50 'G'), primer_length := 20, gc_content := 60 } s
          = (extractResponse (lib I O s).1, (lib I O s).2)) ∧
      I.PRIMER_OPT_SIZE = 20 ∧
      I.PRIMER_MIN_SIZE = 20 - 2 ∧
      I.PRIMER_MAX_SIZE = 20 + 2 ∧
      I.SEQUENCE_TEMPLATE = String.mk (List.replicate 50 'G') ∧
      I.SEQUENCE_INCLUDED_REGION = (0, (50 : Int)) ∧
      I.PRIMER_OPT_GC_PERCENT = 60 ∧
      I.PRIMER_NUM_RETURN = 1 ∧
      O.PRIMER_MIN_SIZE = 20 ∧
      O.PRIMER_MAX_SIZE = 20 ∧
      O.PRIMER_OPT_SIZE = 20 ∧
      O.PRIMER_OPT_GC_PERCENT = 60 ∧
      O.PRIMER_NUM_RETURN = 1 :=
  parameter_dicts_contents
    { sequence := String.mk (List.replicate 50 'G'), primer_length := 20, gc_content := 60 }
    (by decide)

/-- C4: for every request the handler threads the oracle's state through
exactly one library call when the guard passes, and returns the state
untouched — no call at all — when the guard fails. -/
theorem design_primer_calls_library_once (req : PrimerDesignRequest) :
    ∃ (I : PrimerDesignInput) (O : OverrideInput),
      ∀ {σ : Type} (lib : PrimerDesignInput → OverrideInput → σ → PrimerResults × σ) (s : σ),
        (max (2 * req.primer_length) 50 ≤ (req.sequence.length : Int) →
          (design_primer lib req s).2 = (lib I O s).2) ∧
        ((req.sequence.length : Int) < max (2 * req.primer_length) 50 →
          (design_primer lib req s).2 = s) := by
  refine ⟨requestTaskConfig req, requestOverrideConfig req, ?_⟩
  intro σ lib s
  constructor
  · intro h
    rw [design_primer_pass lib req s (by simpa [mul_comm] using h)]
  · intro h
    rw [design_primer_fail lib req s (by simpa [mul_comm] using h)]

/-- C4 witness: with a counting oracle, one passing request performs one
call and one failing request performs none. -/
theorem design_primer_calls_library_once_witness :
    (design_primer (fun (_ : PrimerDesignInput) (_ : OverrideInput) (n : Nat) =>
        ((fun _ => none : PrimerResults), n + 1))
      { sequence := String.mk (List.replicate 50 'A'), primer_length := 25, gc_content := 50 } 0).2 = 1 ∧
    (design_primer (fun (_ : PrimerDesignInput) (_ : OverrideInput) (n : Nat) =>
        ((fun _ => none : PrimerResults), n + 1))
      { sequence := String.mk (List.replicate 50 'A'), primer_length := 30, gc_content := 50 } 0).2 = 0 := by
  constructor
  · obtain ⟨I, O, hco⟩ := design_primer_calls_library_once
      { sequence := String.mk (List.replicate 50 'A'), primer_length := 25, gc_content := 50 }
    exact (hco _ 0).1 (by decide)
  · obtain ⟨I, O, hco⟩ := design_primer_calls_library_once
      { sequence := String.mk (List.replicate 50 'A'), primer_length := 30, gc_content := 50 }
    exact (hco _ 0).2 (by decide)

/-- C8: the product-size guard is the handler's only validation — whenever
it passes, the handler raises no `ValueError` of its own, and `gc_content`
and `primer_length` are forwarded to the library unchecked, even when out
of range. -/
theorem guard_is_only_validation {σ : Type}
    (lib : PrimerDesignInput → OverrideInput → σ → PrimerResults × σ)
    (req : PrimerDesignRequest) (s : σ)
    (h : max (2 * req.primer_length) 50 ≤ (req.sequence.length : Int)) :
    (∀ msg, (design_primer lib req s).1 ≠ .error (.valueError msg)) ∧
    ∃ (I : PrimerDesignInput) (O : OverrideInput),
      design_primer lib req s = (extractResponse (lib I O s).1, (lib I O s).2) ∧
      I.PRIMER_OPT_GC_PERCENT = req.gc_content ∧
      O.PRIMER_OPT_GC_PERCENT = req.gc_content ∧
      I.PRIMER_OPT_SIZE = req.primer_length ∧
      O.PRIMER_OPT_SIZE = req.primer_length := by
  have heq := design_primer_pass lib req s (by simpa [mul_comm] using h)
  constructor
  · intro msg hmsg
    rw [heq] at hmsg
    exact extractResponse_noVE _ msg hmsg
  · exact ⟨requestTaskConfig req, requestOverrideConfig req, heq, rfl, rfl, rfl, rfl⟩

/-- C8 witness: `gc_content = 250` (outside 0-100) and
`primer_length = -3` (not positive) still pass the guard on a
50-character sequence and reach the library unchecked. -/
theorem guard_is_only_validation_witness :
    (∀ msg, (design_primer nullLib
        { sequence := String.mk (List.replicate 50 'A'), primer_length := -3, gc_content := 250 } ()).1
      ≠ .error (.valueError msg)) ∧
    ∃ (I : PrimerDesignInput) (O : OverrideInput),
      design_primer nullLib
        { sequence := String.mk (List.replicate 50 'A'), primer_length := -3, gc_content := 250 } ()
        = (extractResponse (nullLib I O ()).1, (nullLib I O ()).2) ∧
      I.PRIMER_OPT_GC_PERCENT = 250 ∧
      O.PRIMER_OPT_GC_PERCENT = 250 ∧
      I.PRIMER_OPT_SIZE = -3 ∧
      O.PRIMER_OPT_SIZE = -3 :=
  guard_is_only_validation nullLib
    { sequence := String.mk (List.replicate 50 'A'), primer_length := -3, gc_content := 250 } ()
    (by decide)

/-! ### Concrete library replies used to instantiate the theorems -/

/-- A well-formed library reply: one primer pair inside a 50-character
template, one internal oligo reported. -/
def goodAssoc : List (String × P3Value) :=
  [("PRIMER_LEFT_0_SEQUENCE", .str "AAAAA"),
   ("PRIMER_RIGHT_0_SEQUENCE", .str "TTTTT"),
   ("PRIMER_LEFT_0_TM", .num 60),
   ("PRIMER_RIGHT_0_TM", .num 61),
   ("PRIMER_LEFT_0_GC_PERCENT", .num 40),
   ("PRIMER_RIGHT_0_GC_PERCENT", .num 45),
   ("PRIMER_LEFT_0_PENALTY", .num 1),
   ("PRIMER_RIGHT_0_PENALTY", .num 2),
   ("PRIMER_INTERNAL_NUM_RETURNED", .int 1),
   ("PRIMER_INTERNAL_0_SEQUENCE", .str "GGGGG"),
   ("PRIMER_INTERNAL_0_TM", .num 55),
   ("PRIMER_INTERNAL_0_GC_PERCENT", .num 50),
   ("PRIMER_INTERNAL_0_PENALTY", .num 3),
   ("PRIMER_INTERNAL_0", .pair 20 5),
   ("PRIMER_LEFT_0", .pair 0 20),
   ("PRIMER_RIGHT_0", .pair 30 20)]

def goodResults : PrimerResults := fun k => goodAssoc.lookup k

/-- The response extracted from `goodResults`. -/
def goodResp : PrimerResponse :=
  { left_primer :=
      { sequence := "AAAAA", tm := 60, gc_percent := 40, penalty := 1,
        start := 0, length := 20 },
    right_primer :=
      { sequence := "TTTTT", tm := 61, gc_percent := 45, penalty := 2,
        start := 30, length := 20 },
    internal_primers :=
      [{ sequence := "GGGGG", tm := 55, gc_percent := 50, penalty := 3,
         start := 20, length := 5 }] }

/-- Oracle that always replies `goodResults`. -/
def goodLib : PrimerDesignInput → OverrideInput → Unit → PrimerResults × Unit :=
  fun _ _ s => (goodResults, s)

def reqGood : PrimerDesignRequest :=
  { sequence := String.mk (List.replicate 50 'A'), primer_length := 25, gc_content := 50 }

/-- C5: on a successful request whose library reply is the mapping `r`,
the response holds exactly as many internal primers as the count `r`
reports under `PRIMER_INTERNAL_NUM_RETURNED`, and its i-th element is the
one built from the `PRIMER_INTERNAL_{i}_*` keys. -/
theorem internal_primers_match_reported_count {σ : Type}
    (lib : PrimerDesignInput → OverrideInput → σ → PrimerResults × σ)
    (req : PrimerDesignRequest) (s : σ) (r : PrimerResults)
    (resp : PrimerResponse) (n : Int)
    (hlib : ∀ I O, (lib I O s).1 = r)
    (hok : (design_primer lib req s).1 = .ok resp)
    (hk : r "PRIMER_INTERNAL_NUM_RETURNED" = some (.int n)) (hn : 0 ≤ n) :
    (resp.internal_primers.length : Int) = n ∧
    ∀ i, (hi : i < resp.internal_primers.length) →
      buildInternalDetail r i = .ok resp.internal_primers[i] := by
  by_cases hg : (req.sequence.length : Int) < max (req.primer_length * 2) 50
  · rw [design_primer_fail lib req s hg] at hok
    exact Except.noConfusion hok
  · push_neg at hg
    rw [design_primer_pass lib req s hg] at hok
    have hok' : extractResponse ((lib (requestTaskConfig req) (requestOverrideConfig req) s).1)
        = .ok resp := hok
    rw [hlib] at hok'
    obtain ⟨-, -, -, -, -, -, -, -, ⟨count, hcount, hil⟩, -, -⟩ :=
      extractResponse_ok_parts hok'
    have hc : count = n := by
      have hrk := getInt_ok hcount
      rw [hk] at hrk
      injection hrk with h2
      injection h2 with h3
      exact h3.symm
    subst hc
    refine ⟨?_, fun i hi => internalPrimersUpTo_get hil i hi⟩
    rw [internalPrimersUpTo_length hil]
    exact Int.toNat_of_nonneg hn

/-- C5 witness: `goodResults` reports one internal oligo and the extracted
response holds exactly one, built from the `PRIMER_INTERNAL_0_*` keys. -/
theorem internal_primers_match_reported_count_witness :
    (goodResp.internal_primers.length : Int) = 1 ∧
    ∀ i, (hi : i < goodResp.internal_primers.length) →
      buildInternalDetail goodResults i = .ok goodResp.internal_primers[i] :=
  internal_primers_match_reported_count goodLib reqGood () goodResults goodResp 1
    (fun _ _ => rfl) rfl rfl (by decide)

/-- C6: on a successful request whose library reply is the mapping `r`,
every field of the left and right primers in the response is exactly the
value `r` holds at the corresponding `PRIMER_LEFT_0*` / `PRIMER_RIGHT_0*`
key, with start and length the two components of the pair. -/
theorem response_is_projection {σ : Type}
    (lib : PrimerDesignInput → OverrideInput → σ → PrimerResults × σ)
    (req : PrimerDesignRequest) (s : σ) (r : PrimerResults)
    (resp : PrimerResponse)
    (hlib : ∀ I O, (lib I O s).1 = r)
    (hok : (design_primer lib req s).1 = .ok resp) :
    r "PRIMER_LEFT_0_SEQUENCE" = some (.str resp.left_primer.sequence) ∧
    r "PRIMER_LEFT_0_TM" = some (.num resp.left_primer.tm) ∧
    r "PRIMER_LEFT_0_GC_PERCENT" = some (.num resp.left_primer.gc_percent) ∧
    r "PRIMER_LEFT_0_PENALTY" = some (.num resp.left_primer.penalty) ∧
    r "PRIMER_LEFT_0" = some (.pair resp.left_primer.start resp.left_primer.length) ∧
    r "PRIMER_RIGHT_0_SEQUENCE" = some (.str resp.right_primer.sequence) ∧
    r "PRIMER_RIGHT_0_TM" = some (.num resp.right_primer.tm) ∧
    r "PRIMER_RIGHT_0_GC_PERCENT" = some (.num resp.right_primer.gc_percent) ∧
    r "PRIMER_RIGHT_0_PENALTY" = some (.num resp.right_primer.penalty) ∧
    r "PRIMER_RIGHT_0" = some (.pair resp.right_primer.start resp.right_primer.length) := by
  by_cases hg : (req.sequence.length : Int) < max (req.primer_length * 2) 50
  · rw [design_primer_fail lib req s hg] at hok
    exact Except.noConfusion hok
  · push_neg at hg
    rw [design_primer_pass lib req s hg] at hok
    have hok' : extractResponse ((lib (requestTaskConfig req) (requestOverrideConfig req) s).1)
        = .ok resp := hok
    rw [hlib] at hok'
    obtain ⟨hls, hrs, hltm, hrtm, hlgc, hrgc, hlpen, hrpen, -, hlp, hrp⟩ :=
      extractResponse_ok_parts hok'
    refine ⟨getStr_ok hls, getNum_ok hltm, getNum_ok hlgc, getNum_ok hlpen, ?_,
      getStr_ok hrs, getNum_ok hrtm, getNum_ok hrgc, getNum_ok hrpen, ?_⟩
    · simpa using getPair_ok hlp
    · simpa using getPair_ok hrp

/-- C6 witness: concrete projection of `goodResults` into `goodResp`. -/
theorem response_is_projection_witness :
    goodResults "PRIMER_LEFT_0_SEQUENCE" = some (.str goodResp.left_primer.sequence) ∧
    goodResults "PRIMER_LEFT_0_TM" = some (.num goodResp.left_primer.tm) ∧
    goodResults "PRIMER_LEFT_0_GC_PERCENT" = some (.num goodResp.left_primer.gc_percent) ∧
    goodResults "PRIMER_LEFT_0_PENALTY" = some (.num goodResp.left_primer.penalty) ∧
    goodResults "PRIMER_LEFT_0" = some (.pair goodResp.left_primer.start goodResp.left_primer.length) ∧
    goodResults "PRIMER_RIGHT_0_SEQUENCE" = some (.str goodResp.right_primer.sequence) ∧
    goodResults "PRIMER_RIGHT_0_TM" = some (.num goodResp.right_primer.tm) ∧
    goodResults "PRIMER_RIGHT_0_GC_PERCENT" = some (.num goodResp.right_primer.gc_percent) ∧
    goodResults "PRIMER_RIGHT_0_PENALTY" = some (.num goodResp.right_primer.penalty) ∧
    goodResults "PRIMER_RIGHT_0" = some (.pair goodResp.right_primer.start goodResp.right_primer.length) :=
  response_is_projection goodLib reqGood () goodResults goodResp (fun _ _ => rfl) rfl

/-- C10: the handler is a deterministic function of the request fields and
the library's reply alone — two runs with equal (sequence, primer_length,
gc_content) in which the oracle returns equal mappings (whatever its state
type) produce the same error or the same response. -/
theorem design_primer_deterministic {σ₁ σ₂ : Type}
    (lib₁ : PrimerDesignInput → OverrideInput → σ₁ → PrimerResults × σ₁)
    (lib₂ : PrimerDesignInput → OverrideInput → σ₂ → PrimerResults × σ₂)
    (req₁ req₂ : PrimerDesignRequest) (s₁ : σ₁) (s₂ : σ₂)
    (hseq : req₁.sequence = req₂.sequence)
    (hpl : req₁.primer_length = req₂.primer_length)
    (hgc : req₁.gc_content = req₂.gc_content)
    (hlib : ∀ I O, (lib₁ I O s₁).1 = (lib₂ I O s₂).1) :
    (design_primer lib₁ req₁ s₁).1 = (design_primer lib₂ req₂ s₂).1 := by
  have hreq : req₁ = req₂ := by
    cases req₁
    cases req₂
    simp only at hseq hpl hgc
    simp [hseq, hpl, hgc]
  subst hreq
  by_cases hg : (req₁.sequence.length : Int) < max (req₁.primer_length * 2) 50
  · rw [design_primer_fail lib₁ req₁ s₁ hg, design_primer_fail lib₂ req₁ s₂ hg]
  · push_neg at hg
    rw [design_primer_pass lib₁ req₁ s₁ hg, design_primer_pass lib₂ req₁ s₂ hg]
    simp only
    rw [hlib]

/-- C10 witness: two oracles over different state types returning the same
mapping yield the same response. -/
theorem design_primer_deterministic_witness :
    (design_primer (fun (_ : PrimerDesignInput) (_ : OverrideInput) (n : Nat) =>
        (goodResults, n + 3)) reqGood 5).1
      = (design_primer goodLib reqGood ()).1 :=
  design_primer_deterministic
    (fun _ _ n => (goodResults, n + 3)) goodLib reqGood reqGood 5 ()
    rfl rfl rfl (fun _ _ => rfl)

/-- A library reply whose reported primer positions fall outside the
template: the left pair starts at 60 in a 50-character template. The
handler copies it into the response without any bounds check. -/
def wildAssoc : List (String × P3Value) :=
  [("PRIMER_LEFT_0_SEQUENCE", .str "AAAAA"),
   ("PRIMER_RIGHT_0_SEQUENCE", .str "TTTTT"),
   ("PRIMER_LEFT_0_TM", .num 60),
   ("PRIMER_RIGHT_0_TM", .num 61),
   ("PRIMER_LEFT_0_GC_PERCENT", .num 40),
   ("PRIMER_RIGHT_0_GC_PERCENT", .num 45),
   ("PRIMER_LEFT_0_PENALTY", .num 1),
   ("PRIMER_RIGHT_0_PENALTY", .num 2),
   ("PRIMER_INTERNAL_NUM_RETURNED", .int 0),
   ("PRIMER_LEFT_0", .pair 60 70),
   ("PRIMER_RIGHT_0", .pair (-4) 200)]

def wildResults : PrimerResults := fun k => wildAssoc.lookup k

def wildLib : PrimerDesignInput → OverrideInput → Unit → PrimerResults × Unit :=
  fun _ _ s => (wildResults, s)

/-- The response the handler builds from `wildResults`. -/
def wildResp : PrimerResponse :=
  { left_primer :=
      { sequence := "AAAAA", tm := 60, gc_percent := 40, penalty := 1,
        start := 60, length := 70 },
    right_primer :=
      { sequence := "TTTTT", tm := 61, gc_percent := 45, penalty := 2,
        start := -4, length := 200 },
    internal_primers := [] }

/-- C7 counterexample: a successful request on a 50-character sequence
whose response's left primer start is 60, outside [0, 50) — the handler
enforces no bounds on the positions the library reports. -/
theorem primer_positions_counterexample :
    (design_primer wildLib reqGood ()).1 = .ok wildResp ∧
    ¬ (wildResp.left_primer.start < (reqGood.sequence.length : Int)) ∧
    ¬ (0 ≤ wildResp.right_primer.start) := by
  refine ⟨rfl, ?_, ?_⟩ <;> decide

/-- C7 (amended): on a successful request the response's left/right start
and length are copied verbatim from the pairs the library reports, so they
lie within [0, L) exactly when the reported components do; the bound holds
under the hypothesis that the library's reported pairs are within
range. -/
theorem primer_positions_from_library {σ : Type}
    (lib : PrimerDesignInput → OverrideInput → σ → PrimerResults × σ)
    (req : PrimerDesignRequest) (s : σ) (resp : PrimerResponse)
    (hok : (design_primer lib req s).1 = .ok resp)
    (hbound : ∀ (I : PrimerDesignInput) (O : OverrideInput) (a b : Int),
      ((lib I O s).1 "PRIMER_LEFT_0" = some (.pair a b) ∨
        (lib I O s).1 "PRIMER_RIGHT_0" = some (.pair a b)) →
      0 ≤ a ∧ a < (req.sequence.length : Int) ∧
        0 ≤ b ∧ b < (req.sequence.length : Int)) :
    (0 ≤ resp.left_primer.start ∧
      resp.left_primer.start < (req.sequence.length : Int) ∧
      0 ≤ resp.left_primer.length ∧
      resp.left_primer.length < (req.sequence.length : Int)) ∧
    (0 ≤ resp.right_primer.start ∧
      resp.right_primer.start < (req.sequence.length : Int) ∧
      0 ≤ resp.right_primer.length ∧
      resp.right_primer.length < (req.sequence.length : Int)) := by
  by_cases hg : (req.sequence.length : Int) < max (req.primer_length * 2) 50
  · rw [design_primer_fail lib req s hg] at hok
    exact Except.noConfusion hok
  · push_neg at hg
    rw [design_primer_pass lib req s hg] at hok
    have hok' : extractResponse ((lib (requestTaskConfig req) (requestOverrideConfig req) s).1)
        = .ok resp := hok
    obtain ⟨-, -, -, -, -, -, -, -, -, hlp, hrp⟩ := extractResponse_ok_parts hok'
    have hl := getPair_ok hlp
    have hr := getPair_ok hrp
    exact ⟨hbound _ _ _ _ (Or.inl (by simpa using hl)),
      hbound _ _ _ _ (Or.inr (by simpa using hr))⟩

/-- C7 witness: with the in-range reply `goodResults`, both primers'
start and length lie within [0, 50). -/
theorem primer_positions_from_library_witness :
    (0 ≤ goodResp.left_primer.start ∧
      goodResp.left_primer.start < (reqGood.sequence.length : Int) ∧
      0 ≤ goodResp.left_primer.length ∧
      goodResp.left_primer.length < (reqGood.sequence.length : Int)) ∧
    (0 ≤ goodResp.right_primer.start ∧
      goodResp.right_primer.start < (reqGood.sequence.length : Int) ∧
      0 ≤ goodResp.right_primer.length ∧
      goodResp.right_primer.length < (reqGood.sequence.length : Int)) :=
  primer_positions_from_library goodLib reqGood () goodResp rfl
    (by
      intro I O a b hab
      cases hab with
      | inl h =>
        have h' : some (P3Value.pair 0 20) = some (P3Value.pair a b) := h
        injection h' with h2
        injection h2 with ha hb
        subst ha
        subst hb
        decide
      | inr h =>
        have h' : some (P3Value.pair 30 20) = some (P3Value.pair a b) := h
        injection h' with h2
        injection h2 with ha hb
        subst ha
        subst hb
        decide)
